import Mathlib

/-!
Verification development for the bibliographic reference audit pipeline
(files utils.py, engines.py, processor.py). Python strings are modelled as
Lean strings, optional values as Option, and Python truthiness explicitly.
All text manipulation is implemented over lists of characters so that every
definition evaluates inside the kernel. Rational numbers stand in for the
float similarity ratios: every ratio compared in the source is a quotient of
small integers, and each float threshold test in the source coincides with
the exact rational comparison performed here (the thresholds 0.75 and the
doubles nearest to 0.6 and 0.7 order such quotients identically).
-/

set_option maxRecDepth 100000

namespace RefAudit

/-- Python truthiness of an optional string: None and "" are falsy. -/
def truthy : Option String → Bool
  | none => false
  | some s => s != ""

/-- Python truthiness of an optional integer: None and 0 are falsy. -/
def truthyInt : Option Int → Bool
  | none => false
  | some n => n != 0

/-- Python `a or b` on optional strings: the first operand when truthy, else the second. -/
def pyOr (a b : Option String) : Option String :=
  if truthy a then a else b

/-- Python str() of an optional string: None renders as "None". -/
def pyStr : Option String → String
  | none => "None"
  | some s => s

/-- Python str() of an optional integer: None renders as "None". -/
def pyStrInt : Option Int → String
  | none => "None"
  | some n => toString n

/-- ASCII lowercase of a string, modelling str.lower on the inputs considered. -/
def pyLower (s : String) : String :=
  String.mk (s.data.map Char.toLower)

/-- Length of the common run of equal characters at the heads of two lists. -/
def runLen : List Char → List Char → Nat
  | a :: as, b :: bs => if a = b then runLen as bs + 1 else 0
  | _, _ => 0

/-- Does the second list begin with the first list? -/
def hasPre : List Char → List Char → Bool
  | [], _ => true
  | _ :: _, [] => false
  | p :: ps, c :: cs => p == c && hasPre ps cs

/-- Python substring membership `needle in hay` over character lists. -/
def subL (needle hay : List Char) : Bool :=
  (List.range (hay.length + 1)).any fun i => hasPre needle (hay.drop i)

/-- Python str.split(sep) for a nonempty separator, over character lists. The
fuel argument starts at the length of the list and strictly bounds the number
of steps, since every step consumes at least one character. -/
def splitOnLAux (sep : List Char) : Nat → List Char → List (List Char)
  | _, [] => [[]]
  | 0, l => [l]
  | fuel + 1, c :: cs =>
    if !sep.isEmpty && hasPre sep (c :: cs) then
      [] :: splitOnLAux sep fuel ((c :: cs).drop sep.length)
    else
      match splitOnLAux sep fuel cs with
      | [] => [[c]]
      | p :: ps => (c :: p) :: ps

/-- Python str.split(sep) over character lists. -/
def splitOnL (sep l : List Char) : List (List Char) :=
  splitOnLAux sep l.length l

/-- Python str.split(sep) on strings (sep nonempty at every call site). -/
def splitStr (sep s : String) : List String :=
  (splitOnL sep.data s.data).map String.mk

/-- Python str.replace(pat, rep) for a nonempty pattern, over character lists,
with the same fuel scheme as splitOnLAux. -/
def replaceLAux (pat rep : List Char) : Nat → List Char → List Char
  | _, [] => []
  | 0, l => l
  | fuel + 1, c :: cs =>
    if !pat.isEmpty && hasPre pat (c :: cs) then
      rep ++ replaceLAux pat rep fuel ((c :: cs).drop pat.length)
    else
      c :: replaceLAux pat rep fuel cs

/-- Python str.replace over character lists. -/
def replaceL (pat rep l : List Char) : List Char :=
  replaceLAux pat rep l.length l

/-- Python str.replace on strings (patterns at every call site are nonempty). -/
def replaceStr (pat rep s : String) : String :=
  String.mk (replaceL pat.data rep.data s.data)

/-- Python str.strip(): drop whitespace from both ends. -/
def trimL (l : List Char) : List Char :=
  ((l.dropWhile Char.isWhitespace).reverse.dropWhile Char.isWhitespace).reverse

/-- Python str.strip() on strings. -/
def pyStrip (s : String) : String :=
  String.mk (trimL s.data)

/-- Split a character list at whitespace characters, keeping empty pieces. -/
def splitWs : List Char → List (List Char)
  | [] => [[]]
  | c :: cs =>
    if c.isWhitespace then [] :: splitWs cs
    else
      match splitWs cs with
      | [] => [[c]]
      | p :: ps => (c :: p) :: ps

/-- Python str.split() with no argument: whitespace-delimited words, empties dropped. -/
def wordsOf (l : List Char) : List (List Char) :=
  (splitWs l).filter fun w => w ≠ []

/-- utils.normalize: strip braces, turn the three punctuation marks into spaces,
lowercase, and collapse whitespace runs to single spaces. The five Python
replace calls have single-character patterns, so they amount to a character
map followed by brace removal. -/
def normalize (text : String) : String :=
  if text = "" then "" else
  let mapped := (text.data.filter fun c => c ≠ '{' ∧ c ≠ '}').map fun c =>
    if c = '.' ∨ c = ',' ∨ c = '-' then ' ' else c.toLower
  String.mk (List.intercalate [' '] (wordsOf mapped))

/-- utils.normalize applied to a possibly absent value (None normalizes to ""). -/
def normalizeO (o : Option String) : String :=
  normalize (o.getD "")

/-- Longest matching block of two character lists in the sense of difflib
SequenceMatcher without junk: a triple (i, j, k) with maximal k such that the
lists agree on k characters starting at i and j, earliest in the first list
and then earliest in the second among maximal blocks. -/
def bestMatch (a b : List Char) : Nat × Nat × Nat :=
  ((List.range a.length).flatMap fun i =>
    (List.range b.length).map fun j => (i, j, runLen (a.drop i) (b.drop j))).foldl
    (fun best c => if c.2.2 > best.2.2 then c else best) (0, 0, 0)

/-- Total size of the matching blocks of difflib SequenceMatcher: recursively
take the longest matching block and recurse on the pieces to its left and to
its right. The fuel argument (total length) strictly bounds the recursion
depth, since each recursive call proceeds only when the block is nonempty. -/
def matchTotalAux : Nat → List Char → List Char → Nat
  | 0, _, _ => 0
  | fuel + 1, a, b =>
    let (i, j, k) := bestMatch a b
    if k = 0 then 0
    else
      matchTotalAux fuel (a.take i) (b.take j) + k +
        matchTotalAux fuel (a.drop (i + k)) (b.drop (j + k))

/-- Total matched characters between two character lists (difflib). -/
def matchTotal (a b : List Char) : Nat :=
  matchTotalAux (a.length + b.length) a b

/-- difflib SequenceMatcher ratio as an exact rational: 2*M/T where M is the
total matched size and T the sum of lengths; 1 when both inputs are empty.
Models the Python float for inputs shorter than 200 characters, below the
autojunk cutoff. -/
def ratioQ (a b : List Char) : ℚ :=
  if a.length + b.length = 0 then 1
  else mkRat (2 * (matchTotal a b : Int)) (a.length + b.length)

/-- utils.similarity: ratio of the normalized strings, with None treated as "". -/
def similarity (a b : Option String) : ℚ :=
  ratioQ (normalizeO a).data (normalizeO b).data

/-- Inner loop of the abbreviation heuristic of utils.check_journal_match:
advance through the longer token list until a token starting with the current
shorter-side token is found; drop it and continue with the next token. Returns
none when the longer list is exhausted first. -/
def dropToMatch (t : List Char) : List (List Char) → Option (List (List Char))
  | [] => none
  | l :: ls => if hasPre t l then some ls else dropToMatch t ls

/-- Count of shorter-side tokens matched in scan order by the while loop of
utils.check_journal_match; once the longer list is exhausted no further token
can match, exactly as the Python index runs off the end. -/
def scanTok : List (List Char) → List (List Char) → Nat
  | [], _ => 0
  | t :: ts, ls =>
    match dropToMatch t ls with
    | none => 0
    | some ls2 => scanTok ts ls2 + 1

/-- utils.check_journal_match: "missing" when either side is falsy; "ok" when
the direct ratio of the two normalized strings exceeds 0.6; otherwise the
abbreviation heuristic compares token counts, with `matches >= 0.75 * len(short)`
written as the exact integer inequality 4 * matches >= 3 * len(short). -/
def check_journal_match (bib_journal api_journal : Option String) : String :=
  if !(truthy bib_journal) || !(truthy api_journal) then "missing"
  else
    let norm_bib := normalize (bib_journal.getD "")
    let norm_api := normalize (api_journal.getD "")
    if ratioQ norm_bib.data norm_api.data > mkRat 3 5 then "ok"
    else
      let tokens_bib := wordsOf norm_bib.data
      let tokens_api := wordsOf norm_api.data
      let pair := if tokens_bib.length < tokens_api.length then (tokens_bib, tokens_api)
                  else (tokens_api, tokens_bib)
      let nMatched := scanTok pair.1 pair.2
      if 4 * nMatched ≥ 3 * pair.1.length then "ok" else "mismatch"

/-- utils.check_authors: false when either side is falsy; take the text before
the first comma of the first " and "-separated author of the bib side,
normalize it, and accept when some " and "-separated author of the api side
normalizes to a string containing it, contained in it, or with ratio above 0.7. -/
def check_authors (bib_authors api_authors : Option String) : Bool :=
  if !(truthy bib_authors) || !(truthy api_authors) then false
  else
    let first_bib := ((splitStr " and " (bib_authors.getD "")).headD "" |>
      fun f => (splitStr "," f).headD "")
    let norm_first := normalize first_bib
    (splitStr " and " (api_authors.getD "")).any fun auth =>
      let norm_auth := normalize auth
      subL norm_first.data norm_auth.data || subL norm_auth.data norm_first.data ||
        ratioQ norm_first.data norm_auth.data > mkRat 7 10

/-- Python str.title() for ASCII text: uppercase an alphabetic character that
follows a non-alphabetic one, lowercase the rest. -/
def pyTitleGo : Bool → List Char → List Char
  | _, [] => []
  | prevAlpha, c :: cs =>
    (if c.isAlpha then (if prevAlpha then c.toLower else c.toUpper) else c) ::
      pyTitleGo c.isAlpha cs

/-- Python str.title() on strings. -/
def pyTitle (s : String) : String :=
  String.mk (pyTitleGo false s.data)

/-- utils.format_source_name: "Unknown" for a falsy code, a fixed human label
for the six known codes, and str.title() otherwise. -/
def format_source_name (source_code : Option String) : String :=
  if !(truthy source_code) then "Unknown"
  else
    let s := source_code.getD ""
    if s = "crossref-doi" then "Crossref (DOI)"
    else if s = "crossref-title" then "Crossref (Search)"
    else if s = "openalex" then "OpenAlex"
    else if s = "pubmed-full" then "PubMed"
    else if s = "arxiv" then "arXiv (Preprint)"
    else if s = "semanticscholar" then "Semantic Scholar"
    else pyTitle s

/-- One author record inside a canonical item, with optional family and given
name fields. -/
structure ItemAuthor where
  family : Option String := none
  given : Option String := none
  deriving DecidableEq

/-- A canonical metadata record in the shape processor.process_entry consumes:
the keys of the crossref message schema into which every adapter normalizes.
A list-valued field set to none models an absent dictionary key, read back
through the defaults of item.get. The ref_count and created_year fields carry
is-referenced-by-count and the created year used only by the sort of the
title branch of fetch_crossref, with the source defaults. -/
structure Item where
  DOI : Option String := none
  arxiv_id : Option String := none
  title : Option (List (Option String)) := none
  issued : Option (List (List (Option Int))) := none
  container_title : Option (List (Option String)) := none
  author : Option (List ItemAuthor) := none
  volume : Option String := none
  issue : Option String := none
  journal_issue_issue : Option String := none
  page : Option String := none
  ref_count : Option Int := none
  created_year : Int := 3000
  deriving DecidableEq

/-- item.get(key, [""])[0] for a list-valued key: "" when the key is absent,
else the first element (the adapters always build one-element lists). -/
def getFirstD (o : Option (List (Option String))) : Option String :=
  match o with
  | none => some ""
  | some l => l.headD none

/-- date_parts[0][0] if date_parts else None, where date_parts is
item.get("issued", {}).get("date-parts", [[None]]). -/
def crYear (issued : Option (List (List (Option Int)))) : Option Int :=
  match issued.getD [[none]] with
  | [] => none
  | d :: _ => d.headD none

/-- One parsed BibTeX entry as a record of optional string fields; none models
an absent key. -/
structure BibEntry where
  ID : Option String := none
  title : Option String := none
  year : Option String := none
  journal : Option String := none
  author : Option String := none
  doi : Option String := none
  verified : Option String := none
  deriving DecidableEq

/-- One row of the field_check table: the original bibtex value, the canonical
value (an integer year stored rendered), and a status string. -/
structure FieldCheck where
  bibtex : Option String
  correct : Option String
  status : String
  deriving DecidableEq

/-- The four-row field_check table of a resolved entry, in source order. -/
structure FieldCheckTable where
  title : FieldCheck
  year : FieldCheck
  journal : FieldCheck
  author : FieldCheck
  deriving DecidableEq

/-- Count of rows with status ok: the score of processor.process_entry. -/
def tableScore (t : FieldCheckTable) : Nat :=
  [t.title, t.year, t.journal, t.author].countP fun v => v.status == "ok"

/-- Count of rows whose original bibtex value is truthy: the valid count of
processor.process_entry. -/
def tableValid (t : FieldCheckTable) : Nat :=
  [t.title, t.year, t.journal, t.author].countP fun v => truthy v.bibtex

/-- The clean_data dictionary of a resolved entry. -/
structure CleanData where
  title : Option String
  year : Option String
  journal : Option String
  author : String
  volume : Option String
  number : Option String
  pages : Option String
  doi : Option String
  arxiv_id : Option String
  deriving DecidableEq

/-- The per-entry result dictionary of processor.process_entry. A none in
bibtex_title, bibtex_year, bibtex_journal or arxiv_id also models a key the
producing branch never put into the dictionary, over which dict.get yields
None: the manual-override dictionary carries none of them, the base status
lacks arxiv_id. -/
structure Status where
  key : Option String := none
  bibtex_title : Option String := none
  bibtex_year : Option String := none
  bibtex_journal : Option String := none
  exists_ : Bool := false
  verified_doi : Option String := none
  doi_url : Option String := none
  pdf_link : Option String := none
  resolution : Option String := none
  confidence : Nat := 0
  field_check : Option FieldCheckTable := none
  clean_data : Option CleanData := none
  arxiv_id : Option String := none
  warnings : List String := []
  deriving DecidableEq

/-- Oracles for the six network adapters and the PDF locator: each maps the
query the orchestrator sends to the canonical record the fetch returns, with
none standing for every no-match or swallowed-failure outcome. -/
structure Providers where
  crossref_doi : String → Option Item
  semanticscholar : String → Option String → Option Item
  openalex : String → Option String → Option Item
  arxiv : String → Option String → Option Item
  crossref_title : String → Option String → Option Item
  pubmed : String → Option String → Option Item
  pdf : String → Option String

/-- One tier of the fallback ladder: it runs only when no item is held yet and
its guard holds; on a hit it installs the item and tag, on a miss it resets
the source to none (as the Python tuple assignment does), recording the
attempted tag in the trace either way. -/
def tierStep : Option Item × Option String × List String → Bool → String →
    (Unit → Option Item) → Option Item × Option String × List String
  | (some it, src, tr), _, _, _ => (some it, src, tr)
  | (none, src, tr), cond, tag, f =>
    if cond then
      match f () with
      | some it => (some it, some tag, tr ++ [tag])
      | none => (none, none, tr ++ [tag])
    else (none, src, tr)

/-- Lines 46 to 72 of processor.process_entry: the six lookup tiers in source
order, the first guarded by the presence of a DOI and the other five by the
presence of a title, each later tier running only while no item has been
found. The trace lists the tags of the tiers that performed a lookup. -/
def tieredFallback (P : Providers) (doi title fal : Option String) :
    Option Item × Option String × List String :=
  tierStep (tierStep (tierStep (tierStep (tierStep (tierStep (none, none, [])
    (truthy doi) "crossref-doi" (fun _ => P.crossref_doi (doi.getD "")))
    (truthy title) "semanticscholar" (fun _ => P.semanticscholar (title.getD "") fal))
    (truthy title) "openalex" (fun _ => P.openalex (title.getD "") fal))
    (truthy title) "arxiv" (fun _ => P.arxiv (title.getD "") fal))
    (truthy title) "crossref-title" (fun _ => P.crossref_title (title.getD "") fal))
    (truthy title) "pubmed" (fun _ => P.pubmed (title.getD "") fal)

/-- Lines 37 to 44 of processor.process_entry: the family name of the first
author, the text before the first comma when one is present, else the last
whitespace-separated word. -/
def firstAuthorLastname (raw : Option String) : Option String :=
  if truthy raw then
    let first_author := pyStrip ((splitStr " and " (raw.getD "")).headD "")
    if first_author.data.contains ',' then
      some (pyStrip ((splitStr "," first_author).headD ""))
    else
      some (pyStrip ((splitStr " " first_author).getLastD ""))
  else none

/-- Numeric value of a digit list. -/
def digitsVal (l : List Char) : Nat :=
  l.foldl (fun n c => 10 * n + (c.toNat - 48)) 0

/-- Python int() on a string: optional sign then digits after stripping
whitespace; none models a raised ValueError. -/
def pyInt? (s : String) : Option Int :=
  match trimL s.data with
  | [] => none
  | '-' :: ds => if ds ≠ [] ∧ ds.all Char.isDigit then some (-(digitsVal ds : Int)) else none
  | '+' :: ds => if ds ≠ [] ∧ ds.all Char.isDigit then some ((digitsVal ds : Int)) else none
  | ds => if ds.all Char.isDigit then some ((digitsVal ds : Int)) else none

/-- The trusted resolution tags of processor.process_entry, line 147. -/
def trustedTags : List String :=
  ["crossref-doi", "crossref-aligned", "pubmed-full", "arxiv", "semanticscholar"]

/-- Python `source in trusted` for the optional source tag. -/
def isTrusted : Option String → Bool
  | none => false
  | some s => trustedTags.contains s

/-- Lines 103 to 108 of processor.process_entry: the canonical author string,
"family, given" when both parts are present, else the family part, joined
with " and ". -/
def crAuthorStr (it : Item) : String :=
  " and ".intercalate ((it.author.getD []).map fun a =>
    let f := a.family.getD ""
    let g := a.given.getD ""
    if f ≠ "" ∧ g ≠ "" then f ++ ", " ++ g else f)

/-- Lines 125 to 131 of processor.process_entry: ok when the two years render
equally as strings, or when both are truthy, the bibtex year parses as an
integer, and the two differ by at most one; a parse failure is swallowed into
mismatch. -/
def yearStatus (bib_year : Option String) (cr_year : Option Int) : String :=
  if pyStr bib_year = pyStrInt cr_year then "ok"
  else if truthy bib_year && truthyInt cr_year then
    match pyInt? (bib_year.getD "") with
    | some bi => if (bi - cr_year.getD 0).natAbs ≤ 1 then "ok" else "mismatch"
    | none => "mismatch"
  else "mismatch"

/-- Lines 125 to 141 of processor.process_entry: the four field checks of a
resolved entry against the canonical values extracted from the item. -/
def fieldTable (e : BibEntry) (it : Item) : FieldCheckTable :=
  let cr_title := getFirstD it.title
  let cr_year := crYear it.issued
  let cr_journal := getFirstD it.container_title
  let cr_author_str := crAuthorStr it
  { title := { bibtex := e.title, correct := cr_title,
               status := if similarity e.title cr_title > mkRat 3 4 then "ok" else "mismatch" },
    year := { bibtex := e.year, correct := cr_year.map toString,
              status := yearStatus e.year cr_year },
    journal := { bibtex := e.journal, correct := cr_journal,
                 status := check_journal_match e.journal cr_journal },
    author := { bibtex := e.author, correct := some cr_author_str,
                status := if check_authors e.author (some cr_author_str) then "ok"
                          else "mismatch" } }

/-- Lines 147 to 152 of processor.process_entry: the confidence formula.
Python computes int((score/valid)*100) on floats; for the values score ≤ 4
and 1 ≤ valid ≤ 4 that a four-row table can produce, that float truncation
equals the natural floor division (100 * score) / valid used here. -/
def confidenceOf (source : Option String) (score valid : Nat) : Nat :=
  if isTrusted source then
    if score = valid then 100 else if valid ≠ 0 then (100 * score) / valid else 50
  else
    if valid ≠ 0 then (100 * score) / valid else 50

/-- Lines 85 to 154 of processor.process_entry: canonical data extraction, the
field checks, and the confidence, for an entry resolved to the item `it` with
resolution tag `source` and the PDF link already fetched. -/
def buildResolved (e : BibEntry) (it : Item) (source : Option String)
    (pdf_link : Option String) : Status :=
  let doi_v := it.DOI
  let arx := it.arxiv_id
  let doi_url :=
    if truthy doi_v then
      some (if subL "PMID".data (doi_v.getD "").data then
              "https://pubmed.ncbi.nlm.nih.gov/" ++ replaceStr "PMID:" "" (doi_v.getD "") ++ "/"
            else "https://doi.org/" ++ doi_v.getD "")
    else if truthy arx then some ("https://arxiv.org/abs/" ++ arx.getD "")
    else none
  let cr_year := crYear it.issued
  let cr_num := pyOr it.issue it.journal_issue_issue
  let clean : CleanData :=
    { title := getFirstD it.title,
      year := if truthyInt cr_year then some (toString (cr_year.getD 0)) else none,
      journal := getFirstD it.container_title,
      author := crAuthorStr it,
      volume := if truthy it.volume then it.volume else none,
      number := if truthy cr_num then cr_num else none,
      pages := if truthy it.page then it.page else none,
      doi := doi_v,
      arxiv_id := arx }
  let table := fieldTable e it
  { key := e.ID,
    bibtex_title := some (e.title.getD ""),
    bibtex_year := some (e.year.getD ""),
    bibtex_journal := some (e.journal.getD ""),
    exists_ := true,
    verified_doi := doi_v,
    doi_url := doi_url,
    pdf_link := pdf_link,
    resolution := source,
    confidence := confidenceOf source (tableScore table) (tableValid table),
    field_check := some table,
    clean_data := some clean,
    arxiv_id := arx,
    warnings := [] }

/-- Lines 10 to 16 of processor.process_entry: the synthetic manual-override
result; the dictionary carries no bibtex_title, bibtex_year, bibtex_journal
or arxiv_id keys. -/
def overrideStatus (e : BibEntry) : Status :=
  { key := e.ID,
    exists_ := true,
    confidence := 100,
    resolution := some "manual-override",
    verified_doi := some (e.doi.getD "Manual"),
    doi_url := if truthy e.doi then some ("https://doi.org/" ++ e.doi.getD "") else none,
    pdf_link := none, field_check := none, clean_data := none, warnings := [] }

/-- Lines 24 to 31 of processor.process_entry: the initial status record that
the unresolved path returns unchanged. -/
def baseStatus (e : BibEntry) : Status :=
  { key := e.ID,
    bibtex_title := some (e.title.getD ""),
    bibtex_year := some (e.year.getD ""),
    bibtex_journal := some (e.journal.getD ""),
    exists_ := false, verified_doi := none, doi_url := none, pdf_link := none,
    resolution := none, confidence := 0, field_check := none, clean_data := none,
    warnings := [] }

/-- Line 10 of processor.process_entry: entry.get("verified", "").lower() == "true". -/
def isOverride (e : BibEntry) : Bool :=
  pyLower (e.verified.getD "") == "true"

/-- processor.process_entry over the provider oracles, returning the result
status together with the trace of network lookups made: the tier tags in
order, then "crossref-doi" again when the alignment lookup runs and
"unpaywall" when the PDF lookup runs. -/
def process_entry (P : Providers) (e : BibEntry) : Status × List String :=
  if isOverride e then (overrideStatus e, [])
  else
    let fal := firstAuthorLastname e.author
    match tieredFallback P e.doi e.title fal with
    | (none, _, tr) => (baseStatus e, tr)
    | (some it0, src0, tr) =>
      let aligned :=
        if truthy it0.DOI && (src0 == some "openalex" || src0 == some "semanticscholar") then
          match P.crossref_doi (it0.DOI.getD "") with
          | some cr => (cr, (some "crossref-aligned" : Option String), tr ++ ["crossref-doi"])
          | none => (it0, src0, tr ++ ["crossref-doi"])
        else (it0, src0, tr)
      if truthy aligned.1.DOI then
        (buildResolved e aligned.1 aligned.2.1 (P.pdf (aligned.1.DOI.getD "")),
          aligned.2.2 ++ ["unpaywall"])
      else
        (buildResolved e aligned.1 aligned.2.1 none, aligned.2.2)

/-- Insert into a sorted list, placing the incoming element before later
elements it compares less-or-equal to, so that sorting stays stable as Python
list.sort is. -/
def insLe {α : Type} (le : α → α → Bool) (x : α) : List α → List α
  | [] => [x]
  | y :: ys => if le x y then x :: y :: ys else y :: insLe le x ys

/-- Stable insertion sort; a stable sort by a total key comparator is unique,
so this agrees with the Python sort used by the adapters. -/
def stableSort {α : Type} (le : α → α → Bool) : List α → List α
  | [] => []
  | x :: xs => insLe le x (stableSort le xs)

/-- One Semantic Scholar search result as fetch_semanticscholar reads it. -/
structure SSPaper where
  title : Option String := none
  authors : List String := []
  year : Option Int := none
  venue : Option String := none
  externalIds_DOI : Option String := none
  citationCount : Option Int := none
  deriving DecidableEq

/-- The canonical record fetch_semanticscholar builds from an accepted paper. -/
def ssBuild (p : SSPaper) : Item :=
  { DOI := p.externalIds_DOI,
    title := some [p.title],
    issued := if truthyInt p.year then some [[p.year]] else none,
    container_title := some [some (p.venue.getD "")],
    author := some (p.authors.map fun n => { family := some n }) }

/-- The scan of fetch_semanticscholar over the citation-sorted results: the
first paper whose title ratio with the query exceeds 0.75 is returned. -/
def ssScan (query_title : String) : List SSPaper → Option Item
  | [] => none
  | p :: ps =>
    if similarity (some query_title) (some (p.title.getD "")) > mkRat 3 4 then some (ssBuild p)
    else ssScan query_title ps

/-- The ranking of fetch_semanticscholar: citation count descending, stable on
ties as Python list.sort with reverse=True is. -/
def ssRank (a b : SSPaper) : Bool :=
  decide ((b.citationCount.getD 0) ≤ (a.citationCount.getD 0))

/-- The response-processing core of fetch_semanticscholar: sort the results by
citation count descending (stable) and accept the first title that passes the
0.75 gate. -/
def fetch_semanticscholar_core (query_title : String) (items : List SSPaper) : Option Item :=
  ssScan query_title (stableSort ssRank items)

/-- One arXiv feed entry as fetch_arxiv reads it. The author field none models
a feed entry with no author key, over which the Python list comprehension
raises and the adapter swallows the error into a no-match. -/
structure ArxEntry where
  id : Option String := none
  title : Option String := none
  published : Option String := none
  author : Option (List (Option String)) := none
  arxiv_doi_text : Option String := none
  deriving DecidableEq

/-- The response-processing core of fetch_arxiv: only the first feed entry is
considered; its title (newlines spaced, then stripped) must pass the 0.75
gate. -/
def fetch_arxiv_core (query_title : String) (entries : List ArxEntry) : Option Item :=
  match entries with
  | [] => none
  | e :: _ =>
    let arx_id := (splitStr "/abs/" (e.id.getD "")).getLastD ""
    let matched_title := pyStrip (replaceStr "\n" " " (e.title.getD ""))
    if similarity (some query_title) (some matched_title) > mkRat 3 4 then
      match e.author with
      | none => none
      | some authors_raw =>
        let pub_date := (e.published.getD "").data.take 4
        some { DOI := e.arxiv_doi_text,
               arxiv_id := some arx_id,
               title := some [some matched_title],
               issued := if pub_date ≠ [] ∧ pub_date.all Char.isDigit then
                           some [[some ((digitsVal pub_date : Int))]] else none,
               container_title := some [some "arXiv Preprint"],
               author := some (authors_raw.map fun n => { family := n }) }
    else none

/-- The scan of the title branch of fetch_crossref over the sorted items: the
first item whose first title passes the 0.75 gate is returned unchanged. -/
def crScan (query_title : String) : List Item → Option Item
  | [] => none
  | it :: its =>
    if similarity (some query_title) (getFirstD it.title) > mkRat 3 4 then some it
    else crScan query_title its

/-- The ranking of the title branch of fetch_crossref: referenced-by count
descending, then created year ascending, stable on full ties. -/
def crRank (a b : Item) : Bool :=
  decide (b.ref_count.getD 0 < a.ref_count.getD 0) ||
    (b.ref_count.getD 0 == a.ref_count.getD 0 && decide (a.created_year ≤ b.created_year))

/-- The response-processing core of the title branch of fetch_crossref: sort
by referenced-by count descending and then created year ascending (stable),
and accept the first title that passes the 0.75 gate. -/
def fetch_crossref_title_core (query_title : String) (items : List Item) : Option Item :=
  crScan query_title (stableSort crRank items)

/-- One OpenAlex work as fetch_openalex reads it, with the nested lookups
projected: display name, the source display name of the primary location,
authorship display names, and the biblio fields. -/
structure OAWork where
  display_name : Option String := none
  doi : Option String := none
  publication_year : Option Int := none
  source_display_name : Option String := none
  authorships : List String := []
  volume : Option String := none
  issue : Option String := none
  first_page : Option String := none
  last_page : Option String := none
  deriving DecidableEq

/-- The response-processing core of fetch_openalex: only the first result of
the citation-sorted response is considered and must pass the 0.75 gate. -/
def fetch_openalex_core (query_title : String) (results : List OAWork) : Option Item :=
  match results with
  | [] => none
  | best :: _ =>
    if similarity (some query_title) (some (best.display_name.getD "")) > mkRat 3 4 then
      some { DOI := some (replaceStr "https://doi.org/" "" (best.doi.getD "")),
             title := some [best.display_name],
             issued := some [[best.publication_year]],
             container_title := some [some (best.source_display_name.getD "")],
             author := some (best.authorships.map fun n => { given := some n, family := some "" }),
             volume := best.volume,
             issue := best.issue,
             page := if truthy best.first_page then
                       some ((best.first_page.getD "") ++ "-" ++ pyStr best.last_page)
                     else none }
    else none

/-- One PubMed esummary record as fetch_pubmed reads it. -/
structure PMSummary where
  elocationid : Option String := none
  title : Option String := none
  pubdate : Option String := none
  source : Option String := none
  authors : List String := []
  volume : Option String := none
  issue : Option String := none
  pages : Option String := none
  deriving DecidableEq

/-- The first run of four consecutive digits in a character list, as the
regex search of fetch_pubmed finds a year in the publication date. -/
def find4Digits : List Char → Option (List Char)
  | [] => none
  | c :: cs =>
    if cs.length ≥ 3 ∧ ((c :: cs).take 4).all Char.isDigit then some ((c :: cs).take 4)
    else find4Digits cs

/-- The response-processing core of fetch_pubmed: the first id of the search
result is summarized and returned, with no title similarity gate at all. -/
def fetch_pubmed_core (ids : List String) (summary : String → PMSummary) : Option Item :=
  match ids with
  | [] => none
  | pmid :: _ =>
    let details := summary pmid
    let eloc := replaceStr "doi: " "" (details.elocationid.getD "")
    some { DOI := some (if eloc ≠ "" then eloc else "PMID:" ++ pmid),
           title := some [some (details.title.getD "")],
           issued := match find4Digits (details.pubdate.getD "").data with
                     | some ds => some [[some ((digitsVal ds : Int))]]
                     | none => none,
           container_title := some [some (details.source.getD "")],
           author := some (details.authors.map fun n => { family := some n }),
           volume := details.volume,
           issue := details.issue,
           page := details.pages }

/-- One row of the CSV projection of utils.to_csv. -/
structure CsvRow where
  citation_key : Option String
  confidence_score : String
  verification_status : String
  source_found : String
  doi : Option String
  title : Option String
  year : Option String
  journal : Option String
  pdf_link : Option String
  arxiv_id : Option String
  deriving DecidableEq

/-- The row utils.to_csv builds for one result: the status column thresholds
at 90 on confidence and then on the exists flag, and each bibliographic
column takes the clean canonical value when truthy, falling back to the
stored original bibtex value (the DOI column falls back to the verified_doi
of the result instead). -/
def to_csv_row (r : Status) : CsvRow :=
  let clean := r.clean_data
  { citation_key := r.key,
    confidence_score := toString r.confidence ++ "%",
    verification_status :=
      if r.confidence ≥ 90 then "Verified"
      else if r.exists_ then "Needs Attention" else "Not Found",
    source_found := format_source_name r.resolution,
    doi := pyOr (clean.bind fun c => c.doi) r.verified_doi,
    title := pyOr (clean.bind fun c => c.title) r.bibtex_title,
    year := pyOr (clean.bind fun c => c.year) r.bibtex_year,
    journal := pyOr (clean.bind fun c => c.journal) r.bibtex_journal,
    pdf_link := r.pdf_link,
    arxiv_id := clean.bind fun c => c.arxiv_id }

/-- The provider ladder as claim C4 words it: the Crossref DOI lookup only
when the entry has a DOI, then the five title-keyed tiers only when the entry
has a title, in the stated order. -/
def claimTierList (P : Providers) (doi title fal : Option String) :
    List (String × Option Item) :=
  (if truthy doi then [("crossref-doi", P.crossref_doi (doi.getD ""))] else []) ++
  (if truthy title then
    [("semanticscholar", P.semanticscholar (title.getD "") fal),
     ("openalex", P.openalex (title.getD "") fal),
     ("arxiv", P.arxiv (title.getD "") fal),
     ("crossref-title", P.crossref_title (title.getD "") fal),
     ("pubmed", P.pubmed (title.getD "") fal)]
   else [])

/-- First non-none result of an ordered adapter list, with the list of tags
attempted: each later element is consulted only when every earlier one
returned none, and the first hit is accepted. -/
def firstHit : List (String × Option Item) → Option Item × Option String × List String
  | [] => (none, none, [])
  | (tag, res) :: rest =>
    match res with
    | some it => (some it, some tag, [tag])
    | none =>
      let r := firstHit rest
      (r.1, r.2.1, tag :: r.2.2)

/-- One ladder element consumed unconditionally: tierStep with a true guard. -/
def tierHit : Option Item × Option String × List String → String × Option Item →
    Option Item × Option String × List String
  | (some it, src, tr), _ => (some it, src, tr)
  | (none, _, tr), (tag, res) =>
    match res with
    | some it => (some it, some tag, tr ++ [tag])
    | none => (none, none, tr ++ [tag])

/-- The author comparison as claim C9 words it: extract the family name of
the first author from each of the two strings (split on " and ", then on
comma, else take the last whitespace-delimited word), normalize both, and
accept on mutual substring containment or ratio above 0.7. -/
def authorsMatchClaim (bib_authors api_authors : Option String) : Bool :=
  let nb := normalize ((firstAuthorLastname bib_authors).getD "")
  let na := normalize ((firstAuthorLastname api_authors).getD "")
  subL nb.data na.data || subL na.data nb.data || ratioQ nb.data na.data > mkRat 7 10

/-- The journal comparison as claim C7 words it, for two present values:
direct ratio of the two normalized strings above 0.6 gives ok; otherwise
tokenize both normalized strings, take the shorter token list, scan the
longer one left to right counting tokens that start with the successive
shorter-side tokens, and give ok exactly when 4 * matches >= 3 * len(short),
else mismatch. -/
def journalMatchClaim (bib api : String) : String :=
  let nb := normalize bib
  let na := normalize api
  if ratioQ nb.data na.data > mkRat 3 5 then "ok"
  else
    let tb := wordsOf nb.data
    let ta := wordsOf na.data
    let short := if tb.length < ta.length then tb else ta
    let long := if tb.length < ta.length then ta else tb
    if 4 * scanTok short long ≥ 3 * short.length then "ok" else "mismatch"

/-- The confidence formula as claim C2 words it, with the rounding it claims
replaced by the floor that the int() truncation of the source performs — the
correction established for claim C2. -/
def claimConfidence (source : Option String) (score valid : Nat) : Nat :=
  if isTrusted source then
    if score = valid then 100
    else if valid ≠ 0 then ⌊((100 * score : Nat) : ℚ) / (valid : ℚ)⌋₊ else 50
  else if valid ≠ 0 then ⌊((100 * score : Nat) : ℚ) / (valid : ℚ)⌋₊ else 50

/-- The normalized text before the first comma of the first " and "-separated
author of the bib side, as check_authors derives it. -/
def firstBibKey (bib_authors : Option String) : String :=
  normalize ((splitStr "," ((splitStr " and " (bib_authors.getD "")).headD "")).headD "")

/-- The per-author acceptance test of check_authors: mutual substring
containment of the normalized strings, or ratio above 0.7. -/
def authorPairOk (norm_first auth : String) : Bool :=
  let norm_auth := normalize auth
  subL norm_first.data norm_auth.data || subL norm_auth.data norm_first.data ||
    ratioQ norm_first.data norm_auth.data > mkRat 7 10

/-- Provider oracles on which every adapter returns none. -/
def noProviders : Providers :=
  { crossref_doi := fun _ => none, semanticscholar := fun _ _ => none,
    openalex := fun _ _ => none, arxiv := fun _ _ => none,
    crossref_title := fun _ _ => none, pubmed := fun _ _ => none,
    pdf := fun _ => none }

/-- A registry record carrying only a DOI and a title, with no year. -/
def itemDeep : Item := { DOI := some "10.1/x", title := some [some "deep"] }

/-- Providers whose DOI lookup returns itemDeep. -/
def provDeep : Providers := { noProviders with crossref_doi := fun _ => some itemDeep }

/-- An entry with a DOI and a title but no year, journal or author. -/
def entryDeep : BibEntry := { doi := some "10.1/x", title := some "deep" }

/-- A record agreeing on title and year but naming a different journal. -/
def itemAbScience : Item :=
  { title := some [some "ab"], issued := some [[some 2000]],
    container_title := some [some "science"] }

/-- Providers whose Semantic Scholar lookup returns itemAbScience. -/
def provAbScience : Providers :=
  { noProviders with semanticscholar := fun _ _ => some itemAbScience }

/-- An entry with title, year and journal present and no author. -/
def entryAbNature : BibEntry :=
  { title := some "ab", year := some "2000", journal := some "nature" }

/-- A record agreeing on the title and carrying an empty journal name. -/
def itemAbEmptyJournal : Item :=
  { title := some [some "ab"], container_title := some [some ""] }

/-- Providers whose Semantic Scholar lookup returns itemAbEmptyJournal. -/
def provAbEmptyJournal : Providers :=
  { noProviders with semanticscholar := fun _ _ => some itemAbEmptyJournal }

/-- An entry with a title and a journal present. -/
def entryAbJournal : BibEntry := { title := some "ab", journal := some "Nature" }

/-- An entry flagged verified, with a DOI and full bibliographic fields. -/
def entryVerified : BibEntry :=
  { verified := some "true", doi := some "10.1/x",
    title := some "Attention", year := some "2017", journal := some "X" }

/-- A record agreeing with entryTitleA on title and year. -/
def itemTitleA : Item := { title := some [some "a"], issued := some [[some 2000]] }

/-- Providers whose Semantic Scholar lookup returns itemTitleA. -/
def provTitleA : Providers :=
  { noProviders with semanticscholar := fun _ _ => some itemTitleA }

/-- An entry with a matching title and year and nothing else. -/
def entryTitleA : BibEntry := { title := some "a", year := some "2000" }

/-- A search result whose title has ratio two thirds with the query "abcd". -/
def paperAb : SSPaper := { title := some "ab" }

/-- An OpenAlex work whose display name has ratio two thirds with "abcd". -/
def workAb : OAWork := { display_name := some "ab" }

/-- An arXiv entry whose title has ratio two thirds with "abcd". -/
def arxAb : ArxEntry := { title := some "ab", author := some [some "X"] }

/-- A crossref item whose title has ratio two thirds with "abcd". -/
def crItemAb : Item := { title := some [some "ab"] }

/-- A PubMed summary whose title shares nothing with the query "abcd". -/
def pmZzzz : PMSummary := { title := some "zzzz" }

/-- A search result whose title matches the query "abcd" exactly; with no
citation count it ties with paperAb and stays behind it in the stable rank. -/
def paperAbcd : SSPaper := { title := some "abcd" }

/-- A crossref item whose title matches the query "abcd" exactly; with the
default sort keys it ties with crItemAb and stays behind it in the stable
rank. -/
def crItemAbcd : Item := { title := some [some "abcd"] }

theorem process_entry_override (P : Providers) (e : BibEntry) (h : isOverride e = true) :
    process_entry P e = (overrideStatus e, []) := by
  simp [process_entry, h]

theorem process_entry_shape (P : Providers) (e : BibEntry) (h : isOverride e = false) :
    (process_entry P e).1 = baseStatus e ∨
      ∃ it src pdf, (process_entry P e).1 = buildResolved e it src pdf := by
  unfold process_entry
  simp only [h, Bool.false_eq_true, if_false]
  rcases hfb : tieredFallback P e.doi e.title (firstAuthorLastname e.author) with ⟨it?, src, tr⟩
  cases it? with
  | none => exact Or.inl rfl
  | some it0 =>
    dsimp only
    split
    · split
      · split
        · exact Or.inr ⟨_, _, _, rfl⟩
        · exact Or.inr ⟨_, _, _, rfl⟩
      · split
        · exact Or.inr ⟨_, _, _, rfl⟩
        · exact Or.inr ⟨_, _, _, rfl⟩
    · split
      · exact Or.inr ⟨_, _, _, rfl⟩
      · exact Or.inr ⟨_, _, _, rfl⟩

theorem buildResolved_field_check (e : BibEntry) (it : Item) (src pdf : Option String) :
    (buildResolved e it src pdf).field_check = some (fieldTable e it) := rfl

theorem buildResolved_confidence (e : BibEntry) (it : Item) (src pdf : Option String) :
    (buildResolved e it src pdf).confidence =
      confidenceOf src (tableScore (fieldTable e it)) (tableValid (fieldTable e it)) := rfl

theorem buildResolved_resolution (e : BibEntry) (it : Item) (src pdf : Option String) :
    (buildResolved e it src pdf).resolution = src := rfl

theorem natFloorDivCast (p q : Nat) : ⌊(p : ℚ) / (q : ℚ)⌋₊ = p / q := by
  rw [Nat.floor_div_nat, Nat.floor_natCast]

theorem confidenceOf_eq_claim (src : Option String) (s v : Nat) :
    confidenceOf src s v = claimConfidence src s v := by
  unfold confidenceOf claimConfidence
  rw [natFloorDivCast]

theorem confidenceOf_le (src : Option String) {s v : Nat} (h : s ≤ v) :
    confidenceOf src s v ≤ 100 := by
  have key : ∀ _ : v ≠ 0, (100 * s) / v ≤ 100 := fun hv => by
    have h1 : (100 * s) / v ≤ (100 * v) / v :=
      Nat.div_le_div_right (Nat.mul_le_mul_left 100 h)
    have h2 : (100 * v) / v = 100 := by
      rw [Nat.mul_div_assoc 100 (dvd_refl v), Nat.div_self (Nat.pos_of_ne_zero hv), Nat.mul_one]
    omega
  unfold confidenceOf
  split
  · split
    · exact le_refl 100
    · split
      · exact key (by assumption)
      · norm_num
  · split
    · exact key (by assumption)
    · norm_num

theorem yearStatus_ne_missing (y : Option String) (cy : Option Int) :
    yearStatus y cy ≠ "missing" := by
  unfold yearStatus
  split
  · decide
  · split
    · rcases hp : pyInt? (y.getD "") with _ | bi
      · show ("mismatch" : String) ≠ "missing"
        decide
      · show (if (bi - cy.getD 0).natAbs ≤ 1 then "ok" else "mismatch") ≠ "missing"
        split
        · decide
        · decide
    · decide

theorem check_journal_match_missing_iff (bj aj : Option String) :
    check_journal_match bj aj = "missing" ↔ truthy bj = false ∨ truthy aj = false := by
  unfold check_journal_match
  split
  case isTrue h =>
    simp only [Bool.or_eq_true, Bool.not_eq_true'] at h
    simpa using h
  case isFalse h =>
    simp only [Bool.or_eq_true, Bool.not_eq_true'] at h
    push_neg at h
    constructor
    · intro hx
      simp only [] at hx
      split at hx
      · exact absurd hx (by decide)
      · split at hx <;> split at hx <;> exact absurd hx (by decide)
    · intro hrhs
      rcases hrhs with h1 | h1
      · exact absurd h1 h.1
      · exact absurd h1 h.2

/-- C1, corrected. For every entry and every combination of provider
responses, the confidence is at most 100 whenever the count of ok field
checks does not exceed the count of fields present in the original entry;
without that proviso the bound fails, as C1_counterexample shows, because a
field absent from both the entry and the canonical record is counted ok
while not counting as present. -/
theorem C1_confidence_range (P : Providers) (e : BibEntry)
    (h : ∀ t, (process_entry P e).1.field_check = some t → tableScore t ≤ tableValid t) :
    (process_entry P e).1.confidence ≤ 100 := by
  by_cases hov : isOverride e
  · rw [process_entry_override P e hov]
    exact le_of_eq rfl
  · rcases process_entry_shape P e (by simpa using hov) with hb | ⟨it, src, pdf, hr⟩
    · rw [hb]
      exact Nat.zero_le 100
    · have hsv := h (fieldTable e it) (by rw [hr, buildResolved_field_check])
      rw [hr, buildResolved_confidence]
      exact confidenceOf_le src hsv

/-- C1, counterexample: an entry holding only a DOI and a title, resolved by
the DOI registry to a record with the same title and no year, gets title ok,
year ok (both sides render "None"), journal missing and author mismatch, so
score 2 against valid 1 and confidence 200, outside [0,100]. -/
theorem C1_counterexample :
    (process_entry provDeep entryDeep).1.confidence = 200 ∧
      ¬ (process_entry provDeep entryDeep).1.confidence ≤ 100 := by
  exact ⟨by decide, by decide⟩

/-- C1, witness: a resolved entry whose ok fields are all present keeps its
confidence within the bound. -/
theorem C1_witness : (process_entry provTitleA entryTitleA).1.confidence ≤ 100 :=
  C1_confidence_range provTitleA entryTitleA (by
    intro t h
    rw [show (process_entry provTitleA entryTitleA).1.field_check =
        some (fieldTable entryTitleA itemTitleA) from by decide] at h
    obtain rfl := Option.some.inj h
    decide)

/-- C2, corrected. For every resolved entry the confidence equals the claimed
case split on the trusted tier with score and valid counted from the field
table, except that the non-integral case takes the floor of 100*score/valid
rather than rounding it, as C2_counterexample shows. -/
theorem C2_confidence_formula (P : Providers) (e : BibEntry) (t : FieldCheckTable)
    (h : (process_entry P e).1.field_check = some t) :
    (process_entry P e).1.confidence =
      claimConfidence (process_entry P e).1.resolution (tableScore t) (tableValid t) := by
  by_cases hov : isOverride e
  · rw [process_entry_override P e hov] at h
    exact absurd h (by simp [overrideStatus])
  · rcases process_entry_shape P e (by simpa using hov) with hb | ⟨it, src, pdf, hr⟩
    · rw [hb] at h
      exact absurd h (by simp [baseStatus])
    · rw [hr] at h ⊢
      rw [buildResolved_field_check] at h
      obtain rfl := Option.some.inj h
      rw [buildResolved_confidence, buildResolved_resolution, confidenceOf_eq_claim]

/-- C2, counterexample: a trusted source resolving an entry with score 2 of
valid 3 yields confidence int(200/3) = 66, while rounding as the claim states
would yield 67. -/
theorem C2_counterexample :
    (process_entry provAbScience entryAbNature).1.field_check.map tableScore = some 2 ∧
    (process_entry provAbScience entryAbNature).1.field_check.map tableValid = some 3 ∧
    isTrusted (process_entry provAbScience entryAbNature).1.resolution = true ∧
    (process_entry provAbScience entryAbNature).1.confidence = 66 ∧
    round ((100 * 2 : ℚ) / 3) = 67 := by
  refine ⟨by decide, by decide, by decide, by decide, ?_⟩
  norm_num [round_eq]

/-- C2, witness: the formula instantiated on a concrete resolved entry. -/
theorem C2_witness :
    (process_entry provTitleA entryTitleA).1.confidence =
      claimConfidence (process_entry provTitleA entryTitleA).1.resolution
        (tableScore (fieldTable entryTitleA itemTitleA))
        (tableValid (fieldTable entryTitleA itemTitleA)) :=
  C2_confidence_formula provTitleA entryTitleA (fieldTable entryTitleA itemTitleA) (by decide)

/-- C3, corrected. In every field table of a resolved entry the title, year
and author statuses are never missing, and the journal status is missing
exactly when the original journal is absent or the canonical journal is
absent: a present journal compared against an empty canonical value is
reported missing, as C3_counterexample shows, so missing is not reserved to
an absent original field. -/
theorem C3_missing_status (P : Providers) (e : BibEntry) (t : FieldCheckTable)
    (h : (process_entry P e).1.field_check = some t) :
    (t.title.status ≠ "missing" ∧ t.year.status ≠ "missing" ∧ t.author.status ≠ "missing") ∧
      (t.journal.status = "missing" ↔
        truthy t.journal.bibtex = false ∨ truthy t.journal.correct = false) := by
  by_cases hov : isOverride e
  · rw [process_entry_override P e hov] at h
    exact absurd h (by simp [overrideStatus])
  · rcases process_entry_shape P e (by simpa using hov) with hb | ⟨it, src, pdf, hr⟩
    · rw [hb] at h
      exact absurd h (by simp [baseStatus])
    · rw [hr, buildResolved_field_check] at h
      obtain rfl := Option.some.inj h
      refine ⟨⟨?_, ?_, ?_⟩, ?_⟩
      · show (if similarity e.title (getFirstD it.title) > mkRat 3 4 then "ok" else "mismatch")
            ≠ "missing"
        split
        · decide
        · decide
      · exact yearStatus_ne_missing e.year (crYear it.issued)
      · show (if check_authors e.author (some (crAuthorStr it)) = true then "ok" else "mismatch")
            ≠ "missing"
        split
        · decide
        · decide
      · exact check_journal_match_missing_iff e.journal (getFirstD it.container_title)

/-- C3, counterexample: an entry whose journal is present, resolved to a
record with an empty canonical journal, gets journal status missing although
the original field is present and disagrees. -/
theorem C3_counterexample :
    ((process_entry provAbEmptyJournal entryAbJournal).1.field_check.map fun t =>
      (t.journal.status, truthy t.journal.bibtex)) = some ("missing", true) := by
  decide

/-- C3, witness: the statuses of a concrete resolved field table. -/
theorem C3_witness :
    (((fieldTable entryTitleA itemTitleA).title.status ≠ "missing" ∧
      (fieldTable entryTitleA itemTitleA).year.status ≠ "missing" ∧
      (fieldTable entryTitleA itemTitleA).author.status ≠ "missing") ∧
      ((fieldTable entryTitleA itemTitleA).journal.status = "missing" ↔
        truthy (fieldTable entryTitleA itemTitleA).journal.bibtex = false ∨
          truthy (fieldTable entryTitleA itemTitleA).journal.correct = false)) :=
  C3_missing_status provTitleA entryTitleA (fieldTable entryTitleA itemTitleA) (by decide)

/-- C5, confirmed. An entry whose verified flag reads "true" short-circuits to
confidence 100, resolution manual-override and an existing result, with an
empty trace: no provider adapter is invoked. -/
theorem C5_manual_override (P : Providers) (e : BibEntry) (h : isOverride e = true) :
    (process_entry P e).1.confidence = 100 ∧
      (process_entry P e).1.resolution = some "manual-override" ∧
      (process_entry P e).1.exists_ = true ∧
      (process_entry P e).2 = [] := by
  rw [process_entry_override P e h]
  exact ⟨rfl, rfl, rfl, rfl⟩

/-- C5, witness: the override result of a concrete verified entry. -/
theorem C5_witness :
    (process_entry noProviders entryVerified).1.confidence = 100 ∧
      (process_entry noProviders entryVerified).1.resolution = some "manual-override" ∧
      (process_entry noProviders entryVerified).1.exists_ = true ∧
      (process_entry noProviders entryVerified).2 = [] :=
  C5_manual_override noProviders entryVerified (by decide)

theorem tierStep_eq (st : Option Item × Option String × List String) (cond : Bool)
    (tag : String) (f : Unit → Option Item) :
    tierStep st cond tag f = if cond then tierHit st (tag, f ()) else st := by
  obtain ⟨it?, src, tr⟩ := st
  cases it? <;> cases cond <;> cases hf : f () <;> simp [tierStep, tierHit, hf]

theorem tieredFallback_none (P : Providers) (d t f : Option String)
    (h1 : ∀ s, P.crossref_doi s = none)
    (h2 : ∀ s a, P.semanticscholar s a = none)
    (h3 : ∀ s a, P.openalex s a = none)
    (h4 : ∀ s a, P.arxiv s a = none)
    (h5 : ∀ s a, P.crossref_title s a = none)
    (h6 : ∀ s a, P.pubmed s a = none) :
    (tieredFallback P d t f).1 = none := by
  unfold tieredFallback
  simp only [tierStep_eq, h1, h2, h3, h4, h5, h6]
  cases truthy d <;> cases truthy t <;> simp [tierHit]

/-- C6, corrected. For every entry without the manual-override flag, when
every adapter returns none the result has exists false, confidence 0 and an
empty field check, with no error (the embedding is total); the flag proviso
is needed because a verified entry short-circuits to an existing result with
confidence 100 even though every adapter returns none, as C6_counterexample
shows. -/
theorem C6_unresolved (P : Providers) (e : BibEntry) (hov : isOverride e = false)
    (h1 : ∀ s, P.crossref_doi s = none)
    (h2 : ∀ s a, P.semanticscholar s a = none)
    (h3 : ∀ s a, P.openalex s a = none)
    (h4 : ∀ s a, P.arxiv s a = none)
    (h5 : ∀ s a, P.crossref_title s a = none)
    (h6 : ∀ s a, P.pubmed s a = none) :
    (process_entry P e).1.exists_ = false ∧ (process_entry P e).1.confidence = 0 ∧
      (process_entry P e).1.field_check = none := by
  have hn := tieredFallback_none P e.doi e.title (firstAuthorLastname e.author)
    h1 h2 h3 h4 h5 h6
  unfold process_entry
  simp only [hov, Bool.false_eq_true, if_false]
  rcases hfb : tieredFallback P e.doi e.title (firstAuthorLastname e.author) with ⟨it?, src, tr⟩
  rw [hfb] at hn
  cases it? with
  | some it0 => exact absurd hn (by simp)
  | none => exact ⟨rfl, rfl, rfl⟩

/-- C6, counterexample: with providers on which every adapter returns none, a
verified entry still resolves to an existing result with confidence 100, so
the claim fails as stated for entries carrying the manual-override flag. -/
theorem C6_counterexample :
    (∀ s, noProviders.crossref_doi s = none) ∧
      (∀ s a, noProviders.semanticscholar s a = none) ∧
      (∀ s a, noProviders.openalex s a = none) ∧
      (∀ s a, noProviders.arxiv s a = none) ∧
      (∀ s a, noProviders.crossref_title s a = none) ∧
      (∀ s a, noProviders.pubmed s a = none) ∧
      (process_entry noProviders entryVerified).1.exists_ = true ∧
      (process_entry noProviders entryVerified).1.confidence = 100 :=
  ⟨fun _ => rfl, fun _ _ => rfl, fun _ _ => rfl, fun _ _ => rfl, fun _ _ => rfl,
    fun _ _ => rfl, by decide, by decide⟩

/-- C6, witness: a plain entry with all adapters returning none. -/
theorem C6_witness :
    (process_entry noProviders entryAbJournal).1.exists_ = false ∧
      (process_entry noProviders entryAbJournal).1.confidence = 0 ∧
      (process_entry noProviders entryAbJournal).1.field_check = none :=
  C6_unresolved noProviders entryAbJournal (by decide) (fun _ => rfl) (fun _ _ => rfl)
    (fun _ _ => rfl) (fun _ _ => rfl) (fun _ _ => rfl) (fun _ _ => rfl)

theorem foldl_tierHit_some (l : List (String × Option Item)) (it : Item)
    (src : Option String) (tr : List String) :
    l.foldl tierHit (some it, src, tr) = (some it, src, tr) := by
  induction l with
  | nil => rfl
  | cons a l ih =>
    rw [List.foldl_cons, show tierHit (some it, src, tr) a = (some it, src, tr) from rfl]
    exact ih

theorem foldl_tierHit_none (l : List (String × Option Item)) (tr0 : List String) :
    l.foldl tierHit (none, none, tr0) =
      ((firstHit l).1, (firstHit l).2.1, tr0 ++ (firstHit l).2.2) := by
  induction l generalizing tr0 with
  | nil => simp [firstHit]
  | cons a l ih =>
    obtain ⟨tag, res⟩ := a
    cases res with
    | some it => simp [List.foldl_cons, tierHit, firstHit, foldl_tierHit_some]
    | none => simp [List.foldl_cons, tierHit, firstHit, ih]

theorem foldl_tierHit_firstHit (l : List (String × Option Item)) :
    l.foldl tierHit (none, none, []) = firstHit l := by
  rw [foldl_tierHit_none]
  rfl

/-- C4, confirmed. The tier ladder of process_entry equals the first hit of
the claimed ordered adapter list — Crossref DOI only when a DOI is present,
then Semantic Scholar, OpenAlex, arXiv, Crossref title search and PubMed only
when a title is present, each later tier attempted exactly when every earlier
one returned none, the first non-none result accepted — and for an entry
without the manual-override flag the call trace of process_entry begins with
exactly the tags of that ladder. -/
theorem C4_tier_order :
    (∀ (P : Providers) (doi title fal : Option String),
      tieredFallback P doi title fal = firstHit (claimTierList P doi title fal)) ∧
    (∀ (P : Providers) (e : BibEntry), isOverride e = false →
      ((process_entry P e).2).take
          (tieredFallback P e.doi e.title (firstAuthorLastname e.author)).2.2.length =
        (tieredFallback P e.doi e.title (firstAuthorLastname e.author)).2.2) := by
  have part1 : ∀ (P : Providers) (doi title fal : Option String),
      tieredFallback P doi title fal = firstHit (claimTierList P doi title fal) := by
    intro P d t f
    unfold tieredFallback claimTierList
    simp only [tierStep_eq]
    cases hd : truthy d <;> cases ht : truthy t <;>
      simp only [Bool.false_eq_true, if_false, if_true, List.nil_append, List.append_nil] <;>
      rw [← foldl_tierHit_firstHit] <;> rfl
  refine ⟨part1, ?_⟩
  intro P e hov
  have tr_shape : ∃ extra, (process_entry P e).2 =
      (tieredFallback P e.doi e.title (firstAuthorLastname e.author)).2.2 ++ extra := by
    unfold process_entry
    simp only [hov, Bool.false_eq_true, if_false]
    rcases hfb : tieredFallback P e.doi e.title (firstAuthorLastname e.author)
      with ⟨it?, src, tr⟩
    cases it? with
    | none => exact ⟨[], by simp⟩
    | some it0 =>
      dsimp only
      repeat' split
      · exact ⟨["crossref-doi", "unpaywall"], by simp⟩
      · exact ⟨["crossref-doi", "unpaywall"], by simp⟩
      · exact ⟨["crossref-doi"], by simp⟩
      · exact ⟨["crossref-doi"], by simp⟩
      · exact ⟨["unpaywall"], by simp⟩
      · exact ⟨[], by simp⟩
  obtain ⟨extra, hx⟩ := tr_shape
  rw [hx, List.take_left]

/-- C4, witness: the trace of a concrete entry resolved by the title ladder
begins with the ladder trace. -/
theorem C4_witness :
    ((process_entry provTitleA entryTitleA).2).take
        (tieredFallback provTitleA entryTitleA.doi entryTitleA.title
          (firstAuthorLastname entryTitleA.author)).2.2.length =
      (tieredFallback provTitleA entryTitleA.doi entryTitleA.title
        (firstAuthorLastname entryTitleA.author)).2.2 :=
  C4_tier_order.2 provTitleA entryTitleA (by decide)

/-- C7, confirmed. For present journal values the source comparison agrees
everywhere with the comparison as the claim words it, and the claimed
abbreviation example evaluates to ok. -/
theorem C7_journal_match (bj aj : String) (h1 : bj ≠ "") (h2 : aj ≠ "") :
    check_journal_match (some bj) (some aj) = journalMatchClaim bj aj ∧
      check_journal_match (some "J Nucl Med") (some "Journal of Nuclear Medicine") = "ok" := by
  refine ⟨?_, by decide⟩
  unfold check_journal_match journalMatchClaim
  have hb : truthy (some bj) = true := by simp [truthy, h1]
  have ha : truthy (some aj) = true := by simp [truthy, h2]
  rw [hb, ha]
  simp only [Bool.not_true, Bool.or_self, Bool.false_eq_true, if_false, Option.getD_some]
  split
  · rfl
  · split
    · rfl
    · rfl

/-- C7, witness: the comparison at the claimed example strings. -/
theorem C7_witness :
    check_journal_match (some "J Nucl Med") (some "Journal of Nuclear Medicine") =
        journalMatchClaim "J Nucl Med" "Journal of Nuclear Medicine" ∧
      check_journal_match (some "J Nucl Med") (some "Journal of Nuclear Medicine") = "ok" :=
  C7_journal_match "J Nucl Med" "Journal of Nuclear Medicine" (by decide) (by decide)

theorem mem_insLe {α : Type} (le : α → α → Bool) (x y : α) (l : List α) :
    y ∈ insLe le x l ↔ y = x ∨ y ∈ l := by
  induction l with
  | nil => simp [insLe]
  | cons z l ih =>
    unfold insLe
    split
    · simp
    · simp [ih]
      tauto

theorem mem_stableSort {α : Type} (le : α → α → Bool) (x : α) (l : List α) :
    x ∈ stableSort le l ↔ x ∈ l := by
  induction l with
  | nil => simp [stableSort]
  | cons y l ih =>
    unfold stableSort
    rw [mem_insLe]
    simp [ih]

theorem ssScan_none_iff (q : String) (l : List SSPaper) :
    ssScan q l = none ↔
      ∀ p ∈ l, similarity (some q) (some (p.title.getD "")) ≤ mkRat 3 4 := by
  induction l with
  | nil => simp [ssScan]
  | cons p l ih =>
    unfold ssScan
    split
    case isTrue hgate =>
      constructor
      · intro hx
        exact Option.noConfusion hx
      · intro hall
        exact absurd (hall p (List.mem_cons_self p l)) (not_le.mpr hgate)
    case isFalse hgate =>
      rw [ih]
      constructor
      · intro hall x hx
        rcases List.mem_cons.mp hx with rfl | hx2
        · exact not_lt.mp hgate
        · exact hall x hx2
      · intro hall x hx
        exact hall x (List.mem_cons_of_mem p hx)

theorem crScan_none_iff (q : String) (l : List Item) :
    crScan q l = none ↔
      ∀ it ∈ l, similarity (some q) (getFirstD it.title) ≤ mkRat 3 4 := by
  induction l with
  | nil => simp [crScan]
  | cons p l ih =>
    unfold crScan
    split
    case isTrue hgate =>
      constructor
      · intro hx
        exact Option.noConfusion hx
      · intro hall
        exact absurd (hall p (List.mem_cons_self p l)) (not_le.mpr hgate)
    case isFalse hgate =>
      rw [ih]
      constructor
      · intro hall x hx
        rcases List.mem_cons.mp hx with rfl | hx2
        · exact not_lt.mp hgate
        · exact hall x hx2
      · intro hall x hx
        exact hall x (List.mem_cons_of_mem p hx)

theorem ssScan_first (q : String) (l1 : List SSPaper) (p : SSPaper) (l2 : List SSPaper)
    (h1 : ∀ x ∈ l1, similarity (some q) (some (x.title.getD "")) ≤ mkRat 3 4)
    (h2 : similarity (some q) (some (p.title.getD "")) > mkRat 3 4) :
    ssScan q (l1 ++ p :: l2) = some (ssBuild p) := by
  induction l1 with
  | nil =>
    show ssScan q (p :: l2) = some (ssBuild p)
    unfold ssScan
    rw [if_pos h2]
  | cons x l1 ih =>
    rw [List.cons_append]
    unfold ssScan
    rw [if_neg (not_lt.mpr (h1 x (List.mem_cons_self x l1)))]
    exact ih fun y hy => h1 y (List.mem_cons_of_mem x hy)

theorem crScan_first (q : String) (l1 : List Item) (it : Item) (l2 : List Item)
    (h1 : ∀ x ∈ l1, similarity (some q) (getFirstD x.title) ≤ mkRat 3 4)
    (h2 : similarity (some q) (getFirstD it.title) > mkRat 3 4) :
    crScan q (l1 ++ it :: l2) = some it := by
  induction l1 with
  | nil =>
    show crScan q (it :: l2) = some it
    unfold crScan
    rw [if_pos h2]
  | cons x l1 ih =>
    rw [List.cons_append]
    unfold crScan
    rw [if_neg (not_lt.mpr (h1 x (List.mem_cons_self x l1)))]
    exact ih fun y hy => h1 y (List.mem_cons_of_mem x hy)

/-- C8, corrected. Every similarity gate in the adapters sits at 0.75 and no
adapter gates at the claimed permissive 0.6. The Semantic Scholar and
Crossref search adapters scan their ranked candidate lists: they return none
exactly when every candidate is at or below 0.75, and whenever the ranked
list splits as failing candidates followed by a passing one, that first
passing candidate is accepted even though the candidates ranked above it —
in particular the top one — failed the gate. OpenAlex and arXiv accept only
their first candidate and only above 0.75, and the PubMed search applies no
similarity gate at all, accepting whenever the id list is nonempty. -/
theorem C8_gates :
    (∀ (q : String) (papers : List SSPaper),
      fetch_semanticscholar_core q papers = none ↔
        ∀ p ∈ papers, similarity (some q) (some (p.title.getD "")) ≤ mkRat 3 4) ∧
    (∀ (q : String) (papers l1 : List SSPaper) (p : SSPaper) (l2 : List SSPaper),
      stableSort ssRank papers = l1 ++ p :: l2 →
      (∀ x ∈ l1, similarity (some q) (some (x.title.getD "")) ≤ mkRat 3 4) →
      similarity (some q) (some (p.title.getD "")) > mkRat 3 4 →
      fetch_semanticscholar_core q papers = some (ssBuild p)) ∧
    (∀ (q : String) (items : List Item),
      fetch_crossref_title_core q items = none ↔
        ∀ it ∈ items, similarity (some q) (getFirstD it.title) ≤ mkRat 3 4) ∧
    (∀ (q : String) (items l1 : List Item) (it : Item) (l2 : List Item),
      stableSort crRank items = l1 ++ it :: l2 →
      (∀ x ∈ l1, similarity (some q) (getFirstD x.title) ≤ mkRat 3 4) →
      similarity (some q) (getFirstD it.title) > mkRat 3 4 →
      fetch_crossref_title_core q items = some it) ∧
    (∀ (q : String) (results : List OAWork) (it : Item),
      fetch_openalex_core q results = some it →
      ∃ best rest, results = best :: rest ∧
        similarity (some q) (some (best.display_name.getD "")) > mkRat 3 4) ∧
    (∀ (q : String) (entries : List ArxEntry) (it : Item),
      fetch_arxiv_core q entries = some it →
      ∃ ent rest, entries = ent :: rest ∧
        similarity (some q) (some (pyStrip (replaceStr "\n" " " (ent.title.getD "")))) >
          mkRat 3 4) ∧
    (∀ (ids : List String) (summary : String → PMSummary),
      ids ≠ [] → fetch_pubmed_core ids summary ≠ none) := by
  refine ⟨?_, ?_, ?_, ?_, ?_, ?_, ?_⟩
  · intro q papers
    unfold fetch_semanticscholar_core
    rw [ssScan_none_iff]
    exact ⟨fun h p hp => h p ((mem_stableSort ssRank p papers).mpr hp),
      fun h p hp => h p ((mem_stableSort ssRank p papers).mp hp)⟩
  · intro q papers l1 p l2 hsort h1 h2
    unfold fetch_semanticscholar_core
    rw [hsort]
    exact ssScan_first q l1 p l2 h1 h2
  · intro q items
    unfold fetch_crossref_title_core
    rw [crScan_none_iff]
    exact ⟨fun h p hp => h p ((mem_stableSort crRank p items).mpr hp),
      fun h p hp => h p ((mem_stableSort crRank p items).mp hp)⟩
  · intro q items l1 it l2 hsort h1 h2
    unfold fetch_crossref_title_core
    rw [hsort]
    exact crScan_first q l1 it l2 h1 h2
  · intro q results it h
    cases results with
    | nil => exact absurd h (by simp [fetch_openalex_core])
    | cons best rest =>
      refine ⟨best, rest, rfl, ?_⟩
      by_contra hnot
      rw [show fetch_openalex_core q (best :: rest) = none from by
        unfold fetch_openalex_core; exact if_neg hnot] at h
      exact Option.noConfusion h
  · intro q entries it h
    cases entries with
    | nil => exact absurd h (by simp [fetch_arxiv_core])
    | cons ent rest =>
      refine ⟨ent, rest, rfl, ?_⟩
      by_contra hnot
      rw [show fetch_arxiv_core q (ent :: rest) = none from by
        unfold fetch_arxiv_core; simp only []; exact if_neg hnot] at h
      exact Option.noConfusion h
  · intro ids summary h
    cases ids with
    | nil => exact absurd rfl h
    | cons pmid rest => exact fun hx => Option.noConfusion hx

/-- C8, counterexample: a candidate title at ratio two thirds with the query
— above 0.6, at or below 0.75 — is rejected by the Semantic Scholar, OpenAlex,
arXiv and Crossref search adapters alike, so no adapter gates at a permissive
0.6. Moreover a below-threshold top candidate does not make the scanning
adapters return none: with a failing candidate ranked first, Semantic Scholar
and the Crossref search still accept the passing candidate ranked after it.
And the PubMed adapter accepts a record at ratio 0 with the query, applying
no gate at all. -/
theorem C8_counterexample :
    similarity (some "abcd") (some "ab") > mkRat 3 5 ∧
      ¬ similarity (some "abcd") (some "ab") > mkRat 3 4 ∧
      fetch_semanticscholar_core "abcd" [paperAb] = none ∧
      fetch_openalex_core "abcd" [workAb] = none ∧
      fetch_arxiv_core "abcd" [arxAb] = none ∧
      fetch_crossref_title_core "abcd" [crItemAb] = none ∧
      fetch_semanticscholar_core "abcd" [paperAb, paperAbcd] = some (ssBuild paperAbcd) ∧
      fetch_crossref_title_core "abcd" [crItemAb, crItemAbcd] = some crItemAbcd ∧
      similarity (some "abcd") (some "zzzz") = 0 ∧
      fetch_pubmed_core ["1"] (fun _ => pmZzzz) ≠ none := by
  decide

/-- C8, witness: the scanning acceptance and the ungated PubMed lookup
instantiated on concrete candidate lists — the top candidate fails the gate
and the second is accepted. -/
theorem C8_witness :
    fetch_semanticscholar_core "abcd" [paperAb, paperAbcd] = some (ssBuild paperAbcd) ∧
      fetch_pubmed_core ["1"] (fun _ => pmZzzz) ≠ none :=
  ⟨C8_gates.2.1 "abcd" [paperAb, paperAbcd] [paperAb] paperAbcd [] (by decide) (by decide)
      (by decide),
    C8_gates.2.2.2.2.2.2 ["1"] (fun _ => pmZzzz) (by decide)⟩

/-- C9, corrected. check_authors takes from the bib side only the text before
the first comma of the first author — the whole name when no comma is present,
not the last whitespace word — and compares it against every " and "-separated
author of the api side in full, accepting when any of them contains it, is
contained in it, or exceeds ratio 0.7 with it; it does not reduce the api
side to the family name of its first author, as C9_counterexample shows. -/
theorem C9_authors_check (ba aa : Option String) :
    check_authors ba aa = true ↔
      truthy ba = true ∧ truthy aa = true ∧
        ∃ auth ∈ splitStr " and " (aa.getD ""),
          authorPairOk (firstBibKey ba) auth = true := by
  unfold check_authors
  split
  case isTrue h =>
    simp only [Bool.or_eq_true, Bool.not_eq_true'] at h
    constructor
    · intro hx
      exact absurd hx (by decide)
    · rintro ⟨hba, haa, -⟩
      rcases h with h | h
      · rw [hba] at h
        exact Bool.noConfusion h
      · rw [haa] at h
        exact Bool.noConfusion h
  case isFalse h =>
    simp only [Bool.or_eq_true, Bool.not_eq_true'] at h
    push_neg at h
    obtain ⟨hba, haa⟩ := h
    have hba' : truthy ba = true := by
      cases hb : truthy ba
      · exact absurd hb hba
      · rfl
    have haa' : truthy aa = true := by
      cases hb : truthy aa
      · exact absurd hb haa
      · rfl
    simp only []
    rw [List.any_eq_true]
    simp only [hba', haa', true_and]
    exact Iff.rfl

/-- C9, counterexample: with "John Smith" against "Smith, Jane and Doe, John"
the claimed family-name comparison succeeds (both sides reduce to "smith"),
while check_authors compares the whole normalized "john smith" against each
full api author and fails. -/
theorem C9_counterexample :
    authorsMatchClaim (some "John Smith") (some "Smith, Jane and Doe, John") = true ∧
      check_authors (some "John Smith") (some "Smith, Jane and Doe, John") = false := by
  decide

/-- C9, witness: the characterization instantiated on a concrete pair. -/
theorem C9_witness :
    check_authors (some "Vaswani, Ashish and Shazeer, Noam") (some "Vaswani, Ashish") = true :=
  (C9_authors_check (some "Vaswani, Ashish and Shazeer, Noam") (some "Vaswani, Ashish")).mpr
    (by decide)

/-- C10, corrected. The Verification Status column thresholds exactly as the
claim states for every result; for results of the normal pipeline the Title,
Year and Journal columns take the canonical value with fallback to the stored
original bibtex value, while the DOI column falls back to verified_doi rather
than to the original bibtex DOI; and a manual-override result stores no
bibtex fields, so its Title, Year and Journal columns are empty rather than
falling back to the original entry, as C10_counterexample shows. -/
theorem C10_csv_projection :
    (∀ r : Status,
      ((to_csv_row r).verification_status = "Verified" ↔ 90 ≤ r.confidence) ∧
      ((to_csv_row r).verification_status = "Needs Attention" ↔
        r.exists_ = true ∧ r.confidence < 90) ∧
      ((to_csv_row r).verification_status = "Not Found" ↔
        r.exists_ = false ∧ r.confidence < 90)) ∧
    (∀ (P : Providers) (e : BibEntry), isOverride e = false →
      (process_entry P e).1.bibtex_title = some (e.title.getD "") ∧
      (process_entry P e).1.bibtex_year = some (e.year.getD "") ∧
      (process_entry P e).1.bibtex_journal = some (e.journal.getD "") ∧
      (to_csv_row (process_entry P e).1).title =
        pyOr ((process_entry P e).1.clean_data.bind fun c => c.title)
          (some (e.title.getD "")) ∧
      (to_csv_row (process_entry P e).1).year =
        pyOr ((process_entry P e).1.clean_data.bind fun c => c.year)
          (some (e.year.getD "")) ∧
      (to_csv_row (process_entry P e).1).journal =
        pyOr ((process_entry P e).1.clean_data.bind fun c => c.journal)
          (some (e.journal.getD "")) ∧
      (to_csv_row (process_entry P e).1).doi =
        pyOr ((process_entry P e).1.clean_data.bind fun c => c.doi)
          (process_entry P e).1.verified_doi) ∧
    (∀ (P : Providers) (e : BibEntry), isOverride e = true →
      (to_csv_row (process_entry P e).1).title = none ∧
      (to_csv_row (process_entry P e).1).year = none ∧
      (to_csv_row (process_entry P e).1).journal = none ∧
      (to_csv_row (process_entry P e).1).doi = some (e.doi.getD "Manual")) := by
  refine ⟨?_, ?_, ?_⟩
  · intro r
    have hv : (to_csv_row r).verification_status =
        if 90 ≤ r.confidence then "Verified"
        else if r.exists_ = true then "Needs Attention" else "Not Found" := rfl
    rw [hv]
    by_cases h90 : 90 ≤ r.confidence
    · rw [if_pos h90]
      exact ⟨⟨fun _ => h90, fun _ => rfl⟩,
        ⟨fun hx => absurd hx (by decide), fun ⟨_, hlt⟩ => absurd h90 (by omega)⟩,
        ⟨fun hx => absurd hx (by decide), fun ⟨_, hlt⟩ => absurd h90 (by omega)⟩⟩
    · rw [if_neg h90]
      by_cases hex : r.exists_ = true
      · rw [if_pos hex]
        refine ⟨⟨fun hx => absurd hx (by decide), fun hc => absurd hc h90⟩,
          ⟨fun _ => ⟨hex, by omega⟩, fun _ => rfl⟩,
          ⟨fun hx => absurd hx (by decide), fun ⟨hex2, _⟩ => ?_⟩⟩
        rw [hex] at hex2
        exact Bool.noConfusion hex2
      · rw [if_neg hex]
        have hex' : r.exists_ = false := by
          cases hb : r.exists_
          · rfl
          · exact absurd hb hex
        refine ⟨⟨fun hx => absurd hx (by decide), fun hc => absurd hc h90⟩,
          ⟨fun hx => absurd hx (by decide), fun ⟨hex2, _⟩ => ?_⟩,
          ⟨fun _ => ⟨hex', by omega⟩, fun _ => rfl⟩⟩
        rw [hex'] at hex2
        exact Bool.noConfusion hex2
  · intro P e hov
    rcases process_entry_shape P e hov with hb | ⟨it, src, pdf, hr⟩
    · rw [hb]
      exact ⟨rfl, rfl, rfl, rfl, rfl, rfl, rfl⟩
    · rw [hr]
      exact ⟨rfl, rfl, rfl, rfl, rfl, rfl, rfl⟩
  · intro P e hov
    rw [process_entry_override P e hov]
    exact ⟨rfl, rfl, rfl, rfl⟩

/-- C10, counterexample: a manual-override result of an entry with a present
title, year and journal projects to empty Title, Year and Journal columns —
the claimed fallback to the original bibtex values does not happen there. -/
theorem C10_counterexample :
    truthy entryVerified.title = true ∧
      (to_csv_row (process_entry noProviders entryVerified).1).title = none ∧
      (to_csv_row (process_entry noProviders entryVerified).1).year = none ∧
      (to_csv_row (process_entry noProviders entryVerified).1).journal = none := by
  decide

/-- C10, witness: the status column and fallback of a concrete unresolved
result. -/
theorem C10_witness :
    (to_csv_row (process_entry noProviders entryAbJournal).1).verification_status =
        "Not Found" ∧
      (to_csv_row (process_entry noProviders entryAbJournal).1).title =
        pyOr ((process_entry noProviders entryAbJournal).1.clean_data.bind fun c => c.title)
          (some (entryAbJournal.title.getD "")) :=
  ⟨(C10_csv_projection.1 (process_entry noProviders entryAbJournal).1).2.2.mpr (by decide),
    (C10_csv_projection.2.1 noProviders entryAbJournal (by decide)).2.2.2.1⟩

end RefAudit
